import Mathlib

/-!
Shallow embedding of the Standup Summary Generation Pipeline of the
AI-Scrum-Master backend (src/app/agents/standup_agent.py,
src/app/services/llm_provider.py, src/app/services/standup_service.py),
together with theorems settling the frozen claims about it.

Python strings are modelled as `List Char`; Python `str` operations
(`find`, `strip`, `split`, slicing, `startswith`, `lower`) are embedded
below, each one next to a comment naming the Python operation it models.
Fallible Python code is embedded in `Except PyErr`; `json.loads` is
modelled by an executable JSON parser (`jsonLoads`).
-/

namespace AIScrum

/-- Python strings, modelled as lists of characters. -/
abbrev Str := List Char

/-- Python `str.isspace` characters relevant to `str.strip()` with no
arguments: space, tab, newline, carriage return, form feed, vertical tab. -/
def isPySpace (c : Char) : Bool :=
  c = ' ' || c = '\t' || c = '\n' || c = '\r' || c = '\x0b' || c = '\x0c'

/-- Model of Python `str.lstrip()`. -/
def lstrip (s : Str) : Str := s.dropWhile isPySpace

/-- Model of Python `str.rstrip()`. -/
def rstrip (s : Str) : Str := (s.reverse.dropWhile isPySpace).reverse

/-- Model of Python `str.strip()` (remove whitespace at both ends). -/
def strip (s : Str) : Str := rstrip (lstrip s)

/-- Auxiliary scan for `find`: first index (counting from `i`) at which
`needle` occurs in `hay`, scanning left to right. -/
def findAux : Str → Str → Nat → Option Nat
  | [], needle, i => if needle = [] then some i else none
  | c :: cs, needle, i =>
      if needle.isPrefixOf (c :: cs) then some i else findAux cs needle (i + 1)

/-- Model of Python `str.find(needle, start)`: index of the first
occurrence of `needle` in `hay` at position ≥ `start`; the Python `-1`
result is modelled as `none`. -/
def find (hay needle : Str) (start : Nat) : Option Nat :=
  match findAux (hay.drop start) needle 0 with
  | some j => some (start + j)
  | none => none

/-- Model of Python `str.split(chr(10))`: split on newline, where the
empty string yields one empty field. -/
def splitNl : Str → List Str
  | [] => [[]]
  | c :: cs =>
      if c = '\n' then [] :: splitNl cs
      else
        match splitNl cs with
        | r :: rs => (c :: r) :: rs
        | [] => [[c]]

/-- Model of Python `str.lower()` on the ASCII range (the only range the
fixed sentiment table of the pipeline can match after lowering). -/
def lower (s : Str) : Str := s.map Char.toLower

/-- Model of Python `sep.join(xs)`. -/
def strJoin (sep : Str) : List Str → Str
  | [] => []
  | [x] => x
  | x :: y :: xs => x ++ sep ++ strJoin sep (y :: xs)

/-- Decimal digit to character. -/
def digitChar (d : Nat) : Char := Char.ofNat (48 + d)

/-- Fuel-driven decimal rendering of a natural number. -/
def natToStrAux : Nat → Nat → Str
  | 0, _ => []
  | fuel + 1, n =>
      if n < 10 then [digitChar n]
      else natToStrAux fuel (n / 10) ++ [digitChar (n % 10)]

/-- Decimal rendering of a natural number (model of Python `str(n)` for
`n ≥ 0`). -/
def natToStr (n : Nat) : Str := natToStrAux (n + 1) n

/-- Model of Python `str(i)` for `int`. -/
def intToStr (i : Int) : Str :=
  if i < 0 then '-' :: natToStr i.natAbs else natToStr i.natAbs

/-- Left-pad a decimal rendering with zeros up to `w` characters, as
Python `date.__str__` does for year/month/day fields. -/
def padZeros (w : Nat) (s : Str) : Str :=
  List.replicate (w - s.length) '0' ++ s

/-- A calendar date (Python `datetime.date`). -/
structure PyDate where
  year : Nat
  month : Nat
  day : Nat
deriving DecidableEq

/-- Model of Python `date.isoformat()` / `str(date)`: `YYYY-MM-DD`. -/
def dateIso (d : PyDate) : Str :=
  padZeros 4 (natToStr d.year) ++ ['-'] ++ padZeros 2 (natToStr d.month)
    ++ ['-'] ++ padZeros 2 (natToStr d.day)

/-- JSON values as decoded by Python `json.loads`, also reused as the
model of the dynamic Python values the pipeline passes around
(dicts, lists, strings, numbers, booleans, `None`). -/
inductive Json where
  | null : Json
  | bool (b : Bool) : Json
  | num (q : ℚ) : Json
  | str (s : Str) : Json
  | arr (elems : List Json) : Json
  | obj (fields : List (Str × Json)) : Json

/-- Whitespace skipped between JSON tokens (RFC 8259 / Python `json`). -/
def jsonWs (c : Char) : Bool :=
  c = ' ' || c = '\t' || c = '\n' || c = '\r'

/-- Skip inter-token whitespace. -/
def skipWs (s : Str) : Str := s.dropWhile jsonWs

/-- Hex digit value, if any. -/
def hexVal (c : Char) : Option Nat :=
  if '0' ≤ c ∧ c ≤ '9' then some (c.toNat - 48)
  else if 'a' ≤ c ∧ c ≤ 'f' then some (c.toNat - 87)
  else if 'A' ≤ c ∧ c ≤ 'F' then some (c.toNat - 55)
  else none

/-- Decode the body of a JSON string literal (after the opening quote),
returning the decoded characters and the rest of the input after the
closing quote.  Models the strict string scanner of Python `json`: raw
control characters are invalid, the short escapes are decoded, and a
`\uXXXX` escape becomes the character with that code point. -/
def parseJStr : Nat → Str → Option (Str × Str)
  | 0, _ => none
  | _ + 1, [] => none
  | fuel + 1, c :: cs =>
      if c = '"' then some ([], cs)
      else if c = '\\' then
        match cs with
        | [] => none
        | e :: cs2 =>
            if e = 'u' then
              match cs2 with
              | h1 :: h2 :: h3 :: h4 :: cs3 =>
                  match hexVal h1, hexVal h2, hexVal h3, hexVal h4 with
                  | some a, some b, some c4, some d =>
                      match parseJStr fuel cs3 with
                      | some (t, r) =>
                          some (Char.ofNat (((a * 16 + b) * 16 + c4) * 16 + d) :: t, r)
                      | none => none
                  | _, _, _, _ => none
              | _ => none
            else
              let dec : Option Char :=
                if e = '"' then some '"'
                else if e = '\\' then some '\\'
                else if e = '/' then some '/'
                else if e = 'b' then some '\x08'
                else if e = 'f' then some '\x0c'
                else if e = 'n' then some '\n'
                else if e = 'r' then some '\r'
                else if e = 't' then some '\t'
                else none
              match dec with
              | some d =>
                  match parseJStr fuel cs2 with
                  | some (t, r) => some (d :: t, r)
                  | none => none
              | none => none
      else if c.toNat < 32 then none
      else
        match parseJStr fuel cs with
        | some (t, r) => some (c :: t, r)
        | none => none

/-- Is `c` a decimal digit? -/
def isDigit (c : Char) : Bool := '0' ≤ c && c ≤ '9'

/-- Read a maximal run of decimal digits, returning the digits and the
rest. -/
def takeDigits (s : Str) : Str × Str := (s.takeWhile isDigit, s.dropWhile isDigit)

/-- Numeric value of a digit run. -/
def digitsVal (ds : Str) : Nat := ds.foldl (fun a c => a * 10 + (c.toNat - 48)) 0

/-- Parse the optional exponent part of a JSON number, scaling `base`. -/
def parseJExp (base : ℚ) (s : Str) : Option (ℚ × Str) :=
  match s with
  | 'e' :: t | 'E' :: t =>
      let (esign, t1) : Bool × Str := match t with
        | '+' :: u => (false, u)
        | '-' :: u => (true, u)
        | u => (false, u)
      let (eds, t2) := takeDigits t1
      if eds = [] then none
      else
        let mag : ℚ := (10 : ℚ) ^ digitsVal eds
        some (if esign then base / mag else base * mag, t2)
  | _ => some (base, s)

/-- Parse a JSON number per the RFC 8259 grammar (`-? int frac? exp?`,
no leading zeros), as Python `json` accepts it; the value is modelled
exactly as a rational. -/
def parseJNum (s : Str) : Option (ℚ × Str) :=
  let (neg, s1) : Bool × Str := match s with
    | '-' :: t => (true, t)
    | t => (false, t)
  let (ids, s2) := takeDigits s1
  if ids = [] then none
  else if 1 < ids.length ∧ ids.headI = '0' then none
  else
    let intPart : ℚ := (digitsVal ids : ℚ)
    let cont : Option (ℚ × Str) :=
      match s2 with
      | '.' :: t =>
          let (fds, t2) := takeDigits t
          if fds = [] then none
          else parseJExp (intPart + (digitsVal fds : ℚ) / ((10 : ℚ) ^ fds.length)) t2
      | _ => parseJExp intPart s2
    match cont with
    | some (v, rest) => some (if neg then -v else v, rest)
    | none => none

/-- Insert a key/value pair into an object field list with Python
`dict` semantics: an existing key keeps its position but takes the new
value, a new key is appended. -/
def objUpsert (kvs : List (Str × Json)) (k : Str) (v : Json) : List (Str × Json) :=
  match kvs with
  | [] => [(k, v)]
  | (k0, v0) :: rest =>
      if k0 = k then (k0, v) :: rest else (k0, v0) :: objUpsert rest k v

mutual

/-- Parse one JSON value (whitespace already allowed in front), model of
the recursive-descent scanner behind Python `json.loads`.  `fuel`
strictly exceeds any possible recursion depth for the inputs it is run
on (`jsonLoads` supplies `4 * length + 16`). -/
def parseJVal : Nat → Str → Option (Json × Str)
  | 0, _ => none
  | fuel + 1, s =>
      match skipWs s with
      | 'n' :: 'u' :: 'l' :: 'l' :: r => some (.null, r)
      | 't' :: 'r' :: 'u' :: 'e' :: r => some (.bool true, r)
      | 'f' :: 'a' :: 'l' :: 's' :: 'e' :: r => some (.bool false, r)
      | '"' :: r =>
          match parseJStr (fuel + 1) r with
          | some (t, r2) => some (.str t, r2)
          | none => none
      | '[' :: r =>
          (match skipWs r with
           | ']' :: r2 => some (.arr [], r2)
           | _ =>
              match parseJItems fuel r with
              | some (xs, r2) => some (.arr xs, r2)
              | none => none)
      | '{' :: r =>
          (match skipWs r with
           | '}' :: r2 => some (.obj [], r2)
           | _ =>
              match parseJMembers fuel [] r with
              | some (kvs, r2) => some (.obj kvs, r2)
              | none => none)
      | t =>
          match parseJNum t with
          | some (q, r) => some (.num q, r)
          | none => none

/-- Parse the comma-separated items of a non-empty JSON array, up to and
including the closing bracket. -/
def parseJItems : Nat → Str → Option (List Json × Str)
  | 0, _ => none
  | fuel + 1, s =>
      match parseJVal fuel s with
      | some (v, r) =>
          (match skipWs r with
           | ',' :: r2 =>
              (match parseJItems fuel r2 with
               | some (xs, r3) => some (v :: xs, r3)
               | none => none)
           | ']' :: r2 => some ([v], r2)
           | _ => none)
      | none => none

/-- Parse the comma-separated members of a non-empty JSON object, up to
and including the closing brace, accumulating fields with `dict`
upsert semantics. -/
def parseJMembers : Nat → List (Str × Json) → Str → Option (List (Str × Json) × Str)
  | 0, _, _ => none
  | fuel + 1, acc, s =>
      match skipWs s with
      | '"' :: r =>
          (match parseJStr (fuel + 1) r with
           | some (k, r2) =>
              (match skipWs r2 with
               | ':' :: r3 =>
                  (match parseJVal fuel r3 with
                   | some (v, r4) =>
                      let acc2 := objUpsert acc k v
                      (match skipWs r4 with
                       | ',' :: r5 => parseJMembers fuel acc2 r5
                       | '}' :: r5 => some (acc2, r5)
                       | _ => none)
                   | none => none)
               | _ => none)
           | none => none)
      | _ => none

end

/-- Model of Python `json.loads`: decode a complete JSON document,
requiring nothing but whitespace after the value; any failure is
Python `json.JSONDecodeError`, modelled as `none`. -/
def jsonLoads (s : Str) : Option Json :=
  match parseJVal (4 * s.length + 16) s with
  | some (v, rest) => if skipWs rest = [] then some v else none
  | none => none

/-- Python exceptions that the embedded pipeline code can raise. -/
inductive PyErr where
  | typeError (msg : Str) : PyErr
  | valueError (msg : Str) : PyErr
  | attributeError (msg : Str) : PyErr
  | exception (msg : Str) : PyErr
deriving DecidableEq

/-- Last-value association lookup on object field lists (parsing already
collapses duplicate keys via `objUpsert`, so first match suffices). -/
def objLookup (kvs : List (Str × Json)) (k : Str) : Option Json :=
  match kvs with
  | [] => none
  | (k0, v) :: rest => if k0 = k then some v else objLookup rest k

/-- Model of Python `value.get(key, default)`: succeeds on a `dict`,
raises `AttributeError` on any other value (`list`, `str`, `int`,
`float`, `bool`, `None` have no `get` method). -/
def pyGet (v : Json) (k : Str) (dflt : Json) : Except PyErr Json :=
  match v with
  | .obj kvs => .ok ((objLookup kvs k).getD dflt)
  | _ => .error (.attributeError ("object has no attribute get".data))

/-- `StandupAgent._extract_section` (standup_agent.py:280-294): take the
text between `text.find(start_marker)` (a plain first-occurrence
substring search) and the next occurrence of `end_marker`, stripped;
a missing start marker yields the empty string, a missing end marker
extends the section to the end of the text. -/
def extract_section (text startMarker endMarker : Str) : Str :=
  match find text startMarker 0 with
  | none => []
  | some i =>
      let s := i + startMarker.length
      match find text endMarker s with
      | none => strip (text.drop s)
      | some e => strip ((text.take e).drop s)

/-- Does a stripped line start with one of the three bullet markers
(`line.startswith` checks of standup_agent.py:305)? -/
def isBulletLine (line : Str) : Bool :=
  match line with
  | [] => false
  | c :: _ => c = '-' || c = '*' || c = '•'

/-- Loop body of `StandupAgent._parse_bullet_list` over the split
lines: strip each line, keep it when it starts with a bullet marker and
its stripped remainder (`line[1:].strip()`) is non-empty. -/
def bulletLoop : List Str → List Str
  | [] => []
  | l :: ls =>
      let line := strip l
      if isBulletLine line then
        let bullet := strip (line.drop 1)
        if bullet ≠ [] then bullet :: bulletLoop ls else bulletLoop ls
      else bulletLoop ls

/-- `StandupAgent._parse_bullet_list` (standup_agent.py:296-311):
`if not text: return []`, split on newlines, collect bullet lines. -/
def parse_bullet_list (text : Str) : List Str :=
  if text = [] then [] else bulletLoop (splitNl text)

/-- The fixed sentiment table of `StandupAgent._sentiment_to_score`
(standup_agent.py:315-320). -/
def sentiment_map : List (Str × ℚ) :=
  [("positive".data, 0.8), ("neutral".data, 0.5),
   ("negative".data, 0.2), ("mixed".data, 0.5)]

/-- Association lookup with default, model of `dict.get(key, default)`
on the sentiment table. -/
def ratLookupD (kvs : List (Str × ℚ)) (k : Str) (dflt : ℚ) : ℚ :=
  match kvs with
  | [] => dflt
  | (k0, v) :: rest => if k0 = k then v else ratLookupD rest k dflt

/-- `StandupAgent._sentiment_to_score` (standup_agent.py:313-321):
`sentiment_map.get(sentiment.lower(), 0.5)`.  The argument is the raw
JSON value found under `"sentiment"`; calling `.lower()` on a
non-string raises `AttributeError`, exactly as in Python. -/
def sentiment_to_score (sentiment : Json) : Except PyErr ℚ :=
  match sentiment with
  | .str s => .ok (ratLookupD sentiment_map (lower s) 0.5)
  | _ => .error (.attributeError ("object has no attribute lower".data))

/-- The parsed-summary value assembled by
`StandupAgent._parse_llm_response` (its returned dict). -/
structure ParsedSummary where
  summary_text : Str
  completed_yesterday : List Str
  planned_today : List Str
  blockers : List Str
  action_items : Json
  risk_indicators : Json
  sentiment_score : ℚ
  absent_members : Json

/-- The hard-coded default structured object substituted by
`_parse_llm_response` when `json.loads` fails (standup_agent.py:255-261). -/
def default_structured : Json :=
  .obj [("action_items".data, .arr []), ("risk_indicators".data, .arr []),
        ("sentiment".data, .str ("neutral".data)), ("absent_members".data, .arr [])]

/-- The fenced-block opener searched for by `_parse_llm_response`. -/
def jsonOpener : Str := "```json".data

/-- The fence-close marker searched for by `_parse_llm_response`. -/
def fenceClose : Str := "```".data

/-- Section header markers used by `_parse_llm_response`. -/
def mkCompleted : Str := "COMPLETED YESTERDAY".data

/-- Section header marker `PLANNED TODAY`. -/
def mkPlanned : Str := "PLANNED TODAY".data

/-- Section header marker `BLOCKERS`. -/
def mkBlockers : Str := "BLOCKERS".data

/-- Section header marker `NOTES`. -/
def mkNotes : Str := "NOTES".data

/-- Split of the completion text into `(summary_text, json_str)` as in
standup_agent.py:242-250: at the first `jsonOpener` occurrence when
present (the candidate running to the next `fenceClose`, or — via the
Python slice `content[json_start + 7:-1]` — to the last character when
no close follows); otherwise the whole text is narrative and the
candidate is the literal `"\x7b\x7d"`. -/
def splitContent (content : Str) : Str × Str :=
  match find content jsonOpener 0 with
  | some js =>
      (strip (content.take js),
        match find content fenceClose (js + 7) with
        | some je => strip ((content.take je).drop (js + 7))
        | none => strip ((content.take (content.length - 1)).drop (js + 7)))
  | none => (content, "\x7b\x7d".data)

/-- `StandupAgent._parse_llm_response` applied to a completion whose
`"content"` is the given text (standup_agent.py:237-278): split off the
fenced JSON candidate, decode it (substituting `default_structured` on
decode failure), extract the three bulleted sections from the narrative
and the four structured fields from the decoded value, in the
evaluation order of the Python dict literal. -/
def parse_llm_response_content (content : Str) : Except PyErr ParsedSummary := do
  let pair := splitContent content
  let summary_text := pair.1
  let structured_data := (jsonLoads pair.2).getD default_structured
  let completed := parse_bullet_list (extract_section summary_text mkCompleted mkPlanned)
  let planned := parse_bullet_list (extract_section summary_text mkPlanned mkBlockers)
  let blockers := parse_bullet_list (extract_section summary_text mkBlockers mkNotes)
  let action_items ← pyGet structured_data ("action_items".data) (.arr [])
  let risk_indicators ← pyGet structured_data ("risk_indicators".data) (.arr [])
  let sentiment ← pyGet structured_data ("sentiment".data) (.str ("neutral".data))
  let score ← sentiment_to_score sentiment
  let absent_members ← pyGet structured_data ("absent_members".data) (.arr [])
  return { summary_text := summary_text, completed_yesterday := completed,
           planned_today := planned, blockers := blockers,
           action_items := action_items, risk_indicators := risk_indicators,
           sentiment_score := score, absent_members := absent_members }

/-- `StandupAgent._parse_llm_response` at the dict level
(standup_agent.py:240): read `llm_response.get("content", "")` and
parse it; a non-string `"content"` value would fail at `content.find`
with `AttributeError`, as in Python. -/
def parse_llm_response (llm_response : Json) : Except PyErr ParsedSummary := do
  let c ← pyGet llm_response ("content".data) (.str [])
  match c with
  | .str content => parse_llm_response_content content
  | _ => .error (.attributeError ("object has no attribute find".data))

/-- Outcome of the Ollama HTTP POST inside `_ollama_completion`
(llm_provider.py:81-109): connection refused, bounded-wait timeout, or
an HTTP response with a status code and a decoded JSON body. -/
inductive OllamaOutcome where
  | unreachable : OllamaOutcome
  | timeout : OllamaOutcome
  | http (status : Nat) (body : Json) : OllamaOutcome

/-- The single error message every Ollama-path failure is mapped to
(llm_provider.py:109). -/
def ollamaGuidance : Str :=
  "Ollama is not running. Start it with: ollama serve".data

/-- `LLMProvider._ollama_completion` (llm_provider.py:63-109), given the
network outcome: on a 2xx response build the result dict with the
generated text under both `"content"` and `"response"`, summed token
counts, model, provider and zero cost; `raise_for_status` on a non-2xx
response, a connection failure, a timeout, or any error while reading
the body (`data.get` on a non-dict, non-numeric token fields) all land
in the blanket `except` clause, which raises one generic `Exception`
carrying only the operator guidance text. -/
def ollama_completion (model : Str) (outcome : OllamaOutcome) : Except Str Json :=
  match outcome with
  | .http status body =>
      if 200 ≤ status ∧ status < 300 then
        match body with
        | .obj kvs =>
            let response_text := (objLookup kvs ("response".data)).getD (.str [])
            match (objLookup kvs ("eval_count".data)).getD (.num 0),
                  (objLookup kvs ("prompt_eval_count".data)).getD (.num 0) with
            | .num a, .num b =>
                .ok (.obj [("content".data, response_text),
                           ("response".data, response_text),
                           ("tokens_used".data, .num (a + b)),
                           ("model".data, .str model),
                           ("provider".data, .str ("ollama".data)),
                           ("cost_usd".data, .num 0)])
            | _, _ => .error ollamaGuidance
        | _ => .error ollamaGuidance
      else .error ollamaGuidance
  | .unreachable => .error ollamaGuidance
  | .timeout => .error ollamaGuidance

/-- Outcome of the chat-completions call inside
`_openai_compatible_completion` (llm_provider.py:111-150): any raised
error (unreachable, timeout, non-2xx API error) with its detail text,
or a successful response with the message content, total token count
and model name. -/
inductive OpenAIOutcome where
  | failure (detail : Str) : OpenAIOutcome
  | success (content : Str) (totalTokens : ℚ) (model : Str) : OpenAIOutcome

/-- `LLMProvider._openai_compatible_completion` (llm_provider.py:111-150):
on success build the result dict — note the generated text appears only
under `"response"`, with no `"content"` key; any exception is re-raised
as one generic `Exception` prefixed `LLM API failed: `. -/
def openai_compatible_completion (provider : Str) (outcome : OpenAIOutcome) :
    Except Str Json :=
  match outcome with
  | .failure detail => .error ("LLM API failed: ".data ++ detail)
  | .success content totalTokens model =>
      .ok (.obj [("response".data, .str content),
                 ("tokens_used".data, .num totalTokens),
                 ("model".data, .str model),
                 ("provider".data, .str provider)])

/-- A row of `standup_notes` as `_execute_with_session` consumes it
(models/standup_note.py), with its `user` relationship already loaded:
`user_full_name = none` models `note.user is None`. -/
structure StandupNote where
  user_full_name : Option Str
  user_id : Int
  sprint_id : Option Int
  completed_yesterday : List Str
  planned_today : List Str
  blockers : List Str
  notes : Option Str

/-- The sprint fields `_format_prompt_for_llm` reads (models/sprint.py:
`name` non-null, `goal` nullable — a `None` goal renders as the text
`None` inside the f-string). -/
structure SprintInfo where
  name : Str
  goal : Option Str

/-- A persisted `StandupSummary` row as `_save_summary` constructs it
(models/standup.py). -/
structure SavedSummary where
  id : Int
  date : PyDate
  team_id : Int
  sprint_id : Option Int
  creator_id : Option Int
  summary_text : Str
  completed_yesterday : List Str
  planned_today : List Str
  blockers : List Str
  absent_members : Json
  ai_generated : Bool
  sentiment_score : ℚ
  risk_indicators : Json
  action_items : Json
  posted_to_slack : Bool
  human_approved : Bool

/-- The external collaborators of one `_execute_with_session` run: the
rows of the note store for the requested (team, date), the team lookup, the
sprint lookup, the Gateway (`generate_completion`, which returns the
response dict or raises), the wall clock reading used for
`generated_at`, and the id the summary store will assign on insert. -/
structure Env where
  notes : List StandupNote
  team_name : Option Str
  sprintById : Int → Option SprintInfo
  llm : Str → Except Str Json
  now : Str
  nextId : Int

/-- The separator `"\n    - ".join(...)` uses inside each note. -/
def noteSep : Str := ['\n', ' ', ' ', ' ', ' ', '-', ' ']

/-- The block of one note inside the prompt (standup_agent.py:152-172):
joined item lists with literal placeholders for empty lists, the
`**name**` frame, and the optional trailing `Additional Notes` line
(appended only when `note.notes` is truthy). -/
def formatNote (note : StandupNote) : Str :=
  let user_name := match note.user_full_name with
    | some n => n
    | none => "Unknown User".data
  let completed := if note.completed_yesterday ≠ [] then
      strJoin noteSep note.completed_yesterday else "Nothing reported".data
  let planned := if note.planned_today ≠ [] then
      strJoin noteSep note.planned_today else "Nothing planned".data
  let blockers := if note.blockers ≠ [] then
      strJoin noteSep note.blockers else "No blockers".data
  let base :=
    "\n**".data ++ user_name ++ "**:\n  Completed Yesterday:\n    - ".data
      ++ completed ++ "\n\n  Planned Today:\n    - ".data ++ planned
      ++ "\n\n  Blockers:\n    - ".data ++ blockers ++ ['\n']
  match note.notes with
  | some s => if s ≠ [] then base ++ "  Additional Notes: ".data ++ s ++ ['\n'] else base
  | none => base

/-- The fixed instruction tail of the composed prompt
(standup_agent.py:180-218). -/
def taskInstructions : Str :=
  ("\n\n## Your Task:\n\nPlease generate a comprehensive standup summary following this EXACT format:\n\n## COMPLETED YESTERDAY\n[Bulleted list of what the team accomplished yesterday]\n\n## PLANNED TODAY\n[Bulleted list of what the team plans to work on today]\n\n## BLOCKERS\n[Bulleted list of blockers and impediments - if none, write \"No blockers reported\"]\n\n## NOTES\n[Additional observations, risks, patterns, or suggestions for the Scrum Master]\n\nAfter the summary, provide a JSON object with structured data:\n\n```json\n\x7b\n  \"action_items\": [\n    \x7b\"description\": \"action needed\", \"assignee\": \"person or team\", \"priority\": \"high|medium|low\"\x7d\n  ],\n  \"risk_indicators\": [\n    \"risk 1\",\n    \"risk 2\"\n  ],\n  \"sentiment\": \"positive|neutral|negative|mixed\",\n  \"absent_members\": []\n\x7d\n```\n\nFocus on patterns, dependencies, and actionable insights.").data

/-- `StandupAgent._format_prompt_for_llm` (standup_agent.py:131-220):
team name (with the `Team {id}` fallback), optional sprint banner
(only when the `sprint_id` of the first note is truthy and the sprint row
exists), the concatenated note blocks, and the fixed instruction
tail. -/
def format_prompt_for_llm (env : Env) (standup_notes : List StandupNote)
    (team_id : Int) (target_date : PyDate) : Str :=
  let team_name := match env.team_name with
    | some n => n
    | none => "Team ".data ++ intToStr team_id
  let sprint_info : Str := match standup_notes with
    | [] => []
    | n0 :: _ =>
        match n0.sprint_id with
        | some sid =>
            if sid ≠ 0 then
              match env.sprintById sid with
              | some sp =>
                  "\n**Sprint**: ".data ++ sp.name ++ " (Goal: ".data
                    ++ sp.goal.getD ("None".data) ++ [')']
              | none => []
            else []
        | none => []
  let notes_text := (standup_notes.map formatNote).flatten
  "You are analyzing a daily standup for ".data ++ team_name ++ " on ".data
    ++ dateIso target_date ++ ['.'] ++ sprint_info
    ++ "\n\n## Individual Standup Notes:\n\n".data ++ notes_text
    ++ taskInstructions

/-- `StandupAgent._save_summary` (standup_agent.py:323-363): build the
one `StandupSummary` row — sprint and creator references from the first
note, `ai_generated` true, `posted_to_slack` and `human_approved`
false — to be inserted with the store-assigned id. -/
def save_summary (nextId : Int) (team_id : Int) (target_date : PyDate)
    (parsed : ParsedSummary) (standup_notes : List StandupNote) : SavedSummary :=
  let sprint_id := match standup_notes with
    | n :: _ => n.sprint_id
    | [] => none
  let creator_id : Option Int := match standup_notes with
    | n :: _ => some n.user_id
    | [] => none
  { id := nextId, date := target_date, team_id := team_id,
    sprint_id := sprint_id, creator_id := creator_id,
    summary_text := parsed.summary_text,
    completed_yesterday := parsed.completed_yesterday,
    planned_today := parsed.planned_today, blockers := parsed.blockers,
    absent_members := parsed.absent_members, ai_generated := true,
    sentiment_score := parsed.sentiment_score,
    risk_indicators := parsed.risk_indicators,
    action_items := parsed.action_items,
    posted_to_slack := false, human_approved := false }

/-- What one `_execute_with_session` run touched: prompts composed,
Gateway calls made, summary rows inserted. -/
structure Trace where
  composed : List Str
  llm_calls : List Str
  saved : List SavedSummary
deriving Inhabited

/-- The structured failure dict returned on a day with zero notes
(standup_agent.py:70-76). -/
def no_data_result (team_id : Int) (target_date : PyDate) : Json :=
  .obj [("success".data, .bool false),
        ("error".data, .str ("No standup notes found for this date".data)),
        ("date".data, .str (dateIso target_date)),
        ("team_id".data, .num (team_id : ℚ))]

/-- The success dict returned after persistence
(standup_agent.py:97-111); note it carries the narrative, the three
bullet lists, `action_items` and `risk_indicators`, but not
`sentiment_score` or `absent_members`. -/
def success_result (summaryId : Int) (team_id : Int) (target_date : PyDate)
    (parsed : ParsedSummary) (now : Str) (tok cost : Json) : Json :=
  .obj [("success".data, .bool true),
        ("summary_id".data, .num (summaryId : ℚ)),
        ("date".data, .str (dateIso target_date)),
        ("team_id".data, .num (team_id : ℚ)),
        ("summary_text".data, .str parsed.summary_text),
        ("completed_yesterday".data, .arr (parsed.completed_yesterday.map .str)),
        ("planned_today".data, .arr (parsed.planned_today.map .str)),
        ("blockers".data, .arr (parsed.blockers.map .str)),
        ("action_items".data, parsed.action_items),
        ("risk_indicators".data, parsed.risk_indicators),
        ("generated_at".data, .str now),
        ("tokens_used".data, tok),
        ("cost_usd".data, cost)]

/-- `StandupAgent._execute_with_session` (standup_agent.py:64-114):
fetch notes; with zero notes return the structured no-data failure
without composing a prompt, calling the Gateway or writing anything;
otherwise compose the prompt, call the Gateway (whose raised errors
propagate), parse the completion (whose raised errors propagate after
the Gateway call), persist exactly one summary row, and return the
success dict with the token/cost metadata read back off the response
dict. -/
def execute_with_session (env : Env) (team_id : Int) (target_date : PyDate) :
    Except PyErr Json × Trace :=
  if env.notes.isEmpty then
    (.ok (no_data_result team_id target_date), ⟨[], [], []⟩)
  else
    let prompt := format_prompt_for_llm env env.notes team_id target_date
    match env.llm prompt with
    | .error msg => (.error (.exception msg), ⟨[prompt], [prompt], []⟩)
    | .ok llm_response =>
        match parse_llm_response llm_response with
        | .error e => (.error e, ⟨[prompt], [prompt], []⟩)
        | .ok parsed =>
            let summary := save_summary env.nextId team_id target_date parsed env.notes
            let tr : Trace := ⟨[prompt], [prompt], [summary]⟩
            match pyGet llm_response ("tokens_used".data) (.num 0),
                  pyGet llm_response ("cost_usd".data) (.num 0) with
            | .ok tok, .ok cost =>
                (.ok (success_result env.nextId team_id target_date parsed env.now tok cost), tr)
            | .error e, _ => (.error e, tr)
            | .ok _, .error e => (.error e, tr)

/-- The `Team` columns `StandupService.generate_standup_summary` reads
(models/user.py:29-55): Python truthiness makes both `None` and the
empty string falsy for the two integration keys. -/
structure TeamRow where
  name : Str
  jira_project_key : Option Str
  slack_channel_id : Option Str

/-- Model of CPython keyword-argument binding for a call that passes
only the keyword arguments `kwargs` to a callable accepting the keyword
parameters `accepted`: the first keyword not accepted raises
`TypeError: ... got an unexpected keyword argument ...`. -/
def pyKwCall (callee : Str) (accepted : List Str) (kwargs : List Str) :
    Except PyErr Unit :=
  match kwargs.filter (fun k => ¬ accepted.contains k) with
  | [] => .ok ()
  | u :: _ =>
      .error (.typeError (callee ++ " got an unexpected keyword argument ".data ++ u))

/-- The collaborator state one `generate_standup_summary` call sees:
the team-lookup result. -/
structure ServiceEnv where
  team : Option TeamRow

/-- What the service call touched: whether the session was rolled back,
the rows persisted, and whether the LLM layer was ever reached. -/
structure ServiceTrace where
  rolled_back : Bool
  persisted : List SavedSummary
  llm_called : Bool

/-- `StandupService.generate_standup_summary`
(standup_service.py:27-95): look the team up (raising
`ValueError("Team not found")` when absent); construct
`JiraClient(team=team)` / `SlackClient(team=team)` when the respective
integration key is truthy — both constructors
(jira_client.py:98-103, slack_client.py:104-109) take `config`,
`credentials`, `db` and reject the `team` keyword; then construct
`StandupAgent(ai_engine=…, jira_client=…, slack_client=…)` although
`StandupAgent.__init__` (standup_agent.py:20) takes no keyword at all;
were that ever to pass, the following
`standup_agent.execute(team_id=…, sprint_id=…, date=…)` call would
still reject the `sprint_id` keyword (standup_agent.py:40 accepts
`team_id`, `target_date`, `db_session`).  Every raised error is caught
by the blanket `except`, the session is rolled back, and the error is
re-raised; no row is ever persisted and the LLM layer is never
reached. -/
def generate_standup_summary (env : ServiceEnv) :
    Except PyErr SavedSummary × ServiceTrace :=
  match env.team with
  | none => (.error (.valueError ("Team not found".data)), ⟨true, [], false⟩)
  | some team =>
      let jiraStep : Except PyErr Unit :=
        if (team.jira_project_key.getD []) ≠ [] then
          pyKwCall ("JiraClient.__init__".data)
            [("config".data), ("credentials".data), ("db".data)] [("team".data)]
        else .ok ()
      match jiraStep with
      | .error e => (.error e, ⟨true, [], false⟩)
      | .ok _ =>
          let slackStep : Except PyErr Unit :=
            if (team.slack_channel_id.getD []) ≠ [] then
              pyKwCall ("SlackClient.__init__".data)
                [("config".data), ("credentials".data), ("db".data)] [("team".data)]
            else .ok ()
          match slackStep with
          | .error e => (.error e, ⟨true, [], false⟩)
          | .ok _ =>
              match pyKwCall ("StandupAgent.__init__".data) []
                  [("ai_engine".data), ("jira_client".data), ("slack_client".data)] with
              | .error e => (.error e, ⟨true, [], false⟩)
              | .ok _ =>
                  match pyKwCall ("StandupAgent.execute".data)
                      [("team_id".data), ("target_date".data), ("db_session".data)]
                      [("team_id".data), ("sprint_id".data), ("date".data)] with
                  | .error e => (.error e, ⟨true, [], false⟩)
                  | .ok _ => (.error (.typeError ("unreachable".data)), ⟨true, [], false⟩)

/-- Narrative text whose only `PLANNED TODAY` occurrence sits inside the
prose of a bullet of the blockers region (after the `BLOCKERS` header,
before the `NOTES` header). -/
def c2Text : Str :=
  ("COMPLETED YESTERDAY\n- a\nBLOCKERS\n- waiting on PLANNED TODAY design\n- another blocker\nNOTES\n- note").data

/-- A sample generated text for exercising the two Gateway backends. -/
def c3Text : Str := "Standup text".data

/-- The result dict the OpenAI-compatible backend builds for `c3Text`
(42 total tokens, model gpt-4, provider openai). -/
def c3OpenaiFields : List (Str × Json) :=
  [("response".data, .str c3Text), ("tokens_used".data, .num 42),
   ("model".data, .str ("gpt-4".data)), ("provider".data, .str ("openai".data))]

/-- A trivial collaborator environment with an empty note store, for
exercising the no-data short-circuit at a concrete input. -/
def c4Env : Env :=
  { notes := [], team_name := none, sprintById := fun _ => none,
    llm := fun _ => .ok .null, now := [], nextId := 1 }

/-- The stub completion of the end-to-end scenario: a well-formed
four-section summary of the three notes of team 7 on 2025-01-10,
followed by a well-formed fenced JSON block. -/
def c7Completion : Str :=
  ("## COMPLETED YESTERDAY\n- Shipped login\n- Fixed bug\n\n## PLANNED TODAY\n- Start search\n- Review PR\n- Write tests\n\n## BLOCKERS\n- Waiting on design\n\n## NOTES\n- Team is on track\n\n```json\n\x7b\n  \"action_items\": [],\n  \"risk_indicators\": [],\n  \"sentiment\": \"positive\",\n  \"absent_members\": []\n\x7d\n```").data

/-- The fields of the response dict the stub Gateway returns in the
end-to-end scenario (shape of an Ollama-path result). -/
def c7ResponseFields : List (Str × Json) :=
  [("content".data, .str c7Completion), ("response".data, .str c7Completion),
   ("tokens_used".data, .num 150), ("model".data, .str ("llama3.2".data)),
   ("provider".data, .str ("ollama".data)), ("cost_usd".data, .num 0)]

/-- The response dict the stub Gateway returns in the end-to-end
scenario. -/
def c7Response : Json := .obj c7ResponseFields

/-- The value `_parse_llm_response` produces for `c7Response`: the
narrative before the fence, the three extracted bullet lists, and the
structured fields of the fenced JSON block (sentiment positive, score
0.8). -/
def c7Parsed : ParsedSummary :=
  { summary_text := ("## COMPLETED YESTERDAY\n- Shipped login\n- Fixed bug\n\n## PLANNED TODAY\n- Start search\n- Review PR\n- Write tests\n\n## BLOCKERS\n- Waiting on design\n\n## NOTES\n- Team is on track").data,
    completed_yesterday := [("Shipped login".data), ("Fixed bug".data)],
    planned_today := [("Start search".data), ("Review PR".data), ("Write tests".data)],
    blockers := [("Waiting on design".data)],
    action_items := .arr [], risk_indicators := .arr [],
    sentiment_score := 0.8, absent_members := .arr [] }

/-- The three-note scenario of §8 of the spec: Alice (completed
`Shipped login`, planned `Start search`), Bob (planned `Review PR`,
blocked on `Waiting on design`), Carol (completed `Fixed bug`, planned
`Write tests`), with a stub Gateway returning `c7Response` and a
summary store that will assign id 41. -/
def c7Env : Env :=
  { notes := [
      { user_full_name := some ("Alice".data), user_id := 1, sprint_id := none,
        completed_yesterday := [("Shipped login".data)],
        planned_today := [("Start search".data)], blockers := [], notes := none },
      { user_full_name := some ("Bob".data), user_id := 2, sprint_id := none,
        completed_yesterday := [], planned_today := [("Review PR".data)],
        blockers := [("Waiting on design".data)], notes := none },
      { user_full_name := some ("Carol".data), user_id := 3, sprint_id := none,
        completed_yesterday := [("Fixed bug".data)],
        planned_today := [("Write tests".data)], blockers := [], notes := none }],
    team_name := some ("Team Seven".data), sprintById := fun _ => none,
    llm := fun _ => .ok c7Response,
    now := "2025-01-10T09:00:00+00:00".data, nextId := 41 }

/-- The target date of the end-to-end scenario. -/
def c7Date : PyDate := ⟨2025, 1, 10⟩

/-- The candidate split when no fenced JSON opener occurs: the whole
input is narrative and the candidate is the literal empty object
text. -/
theorem splitContent_opener_none (content : Str) (h : find content jsonOpener 0 = none) :
    splitContent content = (content, "\x7b\x7d".data) := by
  unfold splitContent
  rw [h]

/-- Decoding the literal empty object text yields the empty object. -/
theorem jsonLoads_empty_obj : jsonLoads ("\x7b\x7d".data) = some (.obj []) := rfl

/-- Characterization of `_parse_llm_response` whenever the structured
data in scope is an object: every field is a `get` with default over
that object, and the only remaining failure point is the sentiment
conversion. -/
theorem parse_content_obj (content : Str) (kvs : List (Str × Json))
    (h : (jsonLoads (splitContent content).2).getD default_structured = .obj kvs) :
    parse_llm_response_content content =
      (match sentiment_to_score ((objLookup kvs ("sentiment".data)).getD (.str ("neutral".data))) with
       | .ok score => .ok {
          summary_text := (splitContent content).1,
          completed_yesterday := parse_bullet_list (extract_section (splitContent content).1 mkCompleted mkPlanned),
          planned_today := parse_bullet_list (extract_section (splitContent content).1 mkPlanned mkBlockers),
          blockers := parse_bullet_list (extract_section (splitContent content).1 mkBlockers mkNotes),
          action_items := (objLookup kvs ("action_items".data)).getD (.arr []),
          risk_indicators := (objLookup kvs ("risk_indicators".data)).getD (.arr []),
          sentiment_score := score,
          absent_members := (objLookup kvs ("absent_members".data)).getD (.arr []) }
       | .error e => .error e) := by
  unfold parse_llm_response_content
  simp only []
  rw [h]
  simp only [pyGet, bind, Except.bind]
  cases hs : sentiment_to_score ((objLookup kvs ("sentiment".data)).getD (.str ("neutral".data))) <;>
    simp [hs, pure, Except.pure]

/-- C1: the response parser is not total.  At a completion whose fenced
block holds a JSON object whose sentiment value is a number, the parse
raises `AttributeError` (from `sentiment.lower()`); at a completion
whose fenced block holds a JSON array at top level, it raises
`AttributeError` (from `structured_data.get`).  The spec requires
`parse` never to raise for any input string, so the code contradicts
the spec at these inputs. -/
theorem c1_parse_raises_on_malformed_structured_values :
    parse_llm_response_content ("pre ```json\n\x7b\"sentiment\": 1\x7d\n```".data)
      = .error (.attributeError ("object has no attribute lower".data)) ∧
    parse_llm_response_content ("pre ```json\n[1, 2]\n```".data)
      = .error (.attributeError ("object has no attribute get".data)) := ⟨rfl, rfl⟩

/-- C8: the sentiment-to-score table maps, case-insensitively,
positive to 0.8, neutral to 0.5, negative to 0.2, mixed to 0.5, and
any other string to 0.5; in particular the three case variants of
positive map to 0.8 and the string meh maps to 0.5. -/
theorem c8_sentiment_mapping :
    (∀ s : Str, sentiment_to_score (.str s) = .ok (
      if lower s = ("positive".data : Str) then 0.8
      else if lower s = ("neutral".data : Str) then 0.5
      else if lower s = ("negative".data : Str) then 0.2
      else if lower s = ("mixed".data : Str) then 0.5
      else 0.5))
  ∧ sentiment_to_score (.str ("Positive".data)) = .ok 0.8
  ∧ sentiment_to_score (.str ("POSITIVE".data)) = .ok 0.8
  ∧ sentiment_to_score (.str ("positive".data)) = .ok 0.8
  ∧ sentiment_to_score (.str ("meh".data)) = .ok 0.5 := by
  refine ⟨?_, rfl, rfl, rfl, rfl⟩
  intro s
  simp only [sentiment_to_score, sentiment_map, ratLookupD]
  rcases eq_or_ne (lower s) ("positive".data : Str) with h1 | h1
  · simp [h1]
  · rcases eq_or_ne (lower s) ("neutral".data : Str) with h2 | h2
    · simp [h1, h2, Ne.symm h1]
    · rcases eq_or_ne (lower s) ("negative".data : Str) with h3 | h3
      · simp [h3, Ne.symm h1, Ne.symm h2]
      · rcases eq_or_ne (lower s) ("mixed".data : Str) with h4 | h4
        · simp [h4, Ne.symm h1, Ne.symm h2, Ne.symm h3]
        · simp [Ne.symm h1, Ne.symm h2, Ne.symm h3, Ne.symm h4, h1, h2, h3, h4]

/-- The bullet loop is the filterMap that keeps, for each line, the
stripped remainder after the marker, provided the stripped line starts
with a marker and that remainder is non-empty. -/
theorem bulletLoop_filterMap (ls : List Str) :
    bulletLoop ls = ls.filterMap (fun l =>
      if isBulletLine (strip l) then
        (if strip ((strip l).drop 1) ≠ [] then some (strip ((strip l).drop 1)) else none)
      else none) := by
  induction ls with
  | nil => rfl
  | cons l ls ih =>
      simp only [bulletLoop, List.filterMap_cons]
      split_ifs with h1 h2 <;> simp [ih]

/-- C9 counterexample: the line consisting of the single character `-`
starts, after trimming, with a bullet marker, yet `_parse_bullet_list`
drops it (because its stripped remainder is empty); this refutes the
claimed equivalence that a line contributes a bullet item exactly when
its trimmed leading character is a marker. -/
theorem c9_counterexample :
    isBulletLine (strip ['-']) = true ∧ parse_bullet_list ['-'] = [] := ⟨rfl, rfl⟩

/-- C9 (amended): a line contributes a bullet item if and only if,
after trimming, its leading character is one of the three markers AND
the remainder of the line after that character, stripped, is
non-empty; the item is that stripped remainder, items keep line order,
non-bullet and marker-only lines are dropped, and a block with no
bullets yields the empty list. -/
theorem c9_bullet_extraction : ∀ text : Str,
    parse_bullet_list text =
      (splitNl text).filterMap (fun l =>
        if isBulletLine (strip l) then
          (if strip ((strip l).drop 1) ≠ [] then some (strip ((strip l).drop 1)) else none)
        else none) := by
  intro text
  by_cases h : text = []
  · subst h; rfl
  · simp [parse_bullet_list, h, bulletLoop_filterMap]

/-- The left strip is a suffix of the original string. -/
theorem lstrip_suffix (s : Str) : lstrip s <:+ s :=
  ⟨s.takeWhile isPySpace, List.takeWhile_append_dropWhile isPySpace s⟩

/-- The right strip is a prefix of the original string. -/
theorem rstrip_front_of (s : Str) : rstrip s <+: s := by
  refine ⟨(s.reverse.takeWhile isPySpace).reverse, ?_⟩
  rw [rstrip, ← List.reverse_append, List.takeWhile_append_dropWhile, List.reverse_reverse]

/-- Stripping yields a contiguous piece of the original string. -/
theorem strip_within (s : Str) : strip s <:+: s :=
  (rstrip_front_of (lstrip s)).isInfix.trans (lstrip_suffix s).isInfix

/-- C2 counterexample: on a narrative whose only occurrence of the text
`PLANNED TODAY` lies inside the prose of a bullet of the blockers
region, `_parse_llm_response` attributes the bullet `another blocker` —
which sits after the `BLOCKERS` header and before the `NOTES` header —
to the planned-today list, because `_extract_section` matches markers
by arbitrary first-occurrence substring search, not by anchored header
format.  This refutes the claimed isolation. -/
theorem c2_counterexample :
    extract_section c2Text mkBlockers mkNotes =
      ("- waiting on PLANNED TODAY design\n- another blocker").data
  ∧ (match parse_llm_response_content c2Text with
     | .ok p => p.planned_today
     | .error _ => []) = [("another blocker".data), ("note".data)] := ⟨rfl, rfl⟩

/-- C2 (amended): `_extract_section` locates markers by plain
first-occurrence substring search.  Whenever the first occurrence of
`PLANNED TODAY` is followed by an occurrence of `BLOCKERS`, the
extracted planned-today section is exactly the stripped slice between
them, and in particular is drawn entirely from the text before that
`BLOCKERS` occurrence — so no character at or beyond it (in particular
none between the `BLOCKERS` and `NOTES` headers) reaches the
planned-today list.  When the only `PLANNED TODAY` occurrence lies
inside the blockers region, however, blockers-region text bleeds into
the planned-today list (see the counterexample). -/
theorem c2_section_extraction_by_substring_search : ∀ (text : Str) (p b : ℕ),
    find text mkPlanned 0 = some p →
    find text mkBlockers (p + mkPlanned.length) = some b →
    extract_section text mkPlanned mkBlockers =
      strip ((text.take b).drop (p + mkPlanned.length)) ∧
    (extract_section text mkPlanned mkBlockers) <:+: text.take b := by
  intro text p b h1 h2
  have he : extract_section text mkPlanned mkBlockers =
      strip ((text.take b).drop (p + mkPlanned.length)) := by
    unfold extract_section
    rw [h1]
    simp only []
    rw [h2]
  refine ⟨he, ?_⟩
  rw [he]
  exact (strip_within _).trans (List.drop_suffix _ _).isInfix

/-- Witness for C2: the amended theorem applied to a concrete text with
both markers present. -/
theorem c2_witness :
    find (("x PLANNED TODAY mid BLOCKERS y").data) mkPlanned 0 = some 2
  ∧ find (("x PLANNED TODAY mid BLOCKERS y").data) mkBlockers (2 + mkPlanned.length) = some 20
  ∧ extract_section (("x PLANNED TODAY mid BLOCKERS y").data) mkPlanned mkBlockers =
      strip (((("x PLANNED TODAY mid BLOCKERS y").data).take 20).drop (2 + mkPlanned.length)) :=
  ⟨rfl, rfl,
    (c2_section_extraction_by_substring_search
      (("x PLANNED TODAY mid BLOCKERS y").data) 2 20 rfl rfl).1⟩

/-- C4: a run over a (team, date) pair with zero notes returns the
structured failure dict — success false, the failure reason, the ISO
date, the team id — raises nothing, and composes no prompt, makes no
Gateway call, and persists nothing. -/
theorem c4_no_data_short_circuit : ∀ (env : Env) (tid : Int) (d : PyDate),
    env.notes = [] →
    execute_with_session env tid d =
      (.ok (.obj [("success".data, .bool false),
                  ("error".data, .str ("No standup notes found for this date".data)),
                  ("date".data, .str (dateIso d)),
                  ("team_id".data, .num (tid : ℚ))]),
       ⟨[], [], []⟩) := by
  intro env tid d h
  simp [execute_with_session, h, no_data_result]

/-- Witness for C4: the no-data short-circuit at the empty concrete
environment, team 7, 2025-01-10. -/
theorem c4_witness : c4Env.notes = [] ∧
    execute_with_session c4Env 7 ⟨2025, 1, 10⟩ =
      (.ok (.obj [("success".data, .bool false),
                  ("error".data, .str ("No standup notes found for this date".data)),
                  ("date".data, .str (dateIso ⟨2025, 1, 10⟩)),
                  ("team_id".data, .num (7 : ℚ))]),
       ⟨[], [], []⟩) := ⟨rfl, c4_no_data_short_circuit c4Env 7 ⟨2025, 1, 10⟩ rfl⟩

/-- C6 counterexample: an Ollama-path HTTP 500 response with an error
body raises exactly the same generic condition, with exactly the same
operator-guidance message, as the unreachable-backend case; the raw
backend detail is not contained in it.  There is no distinct
request-failed condition carrying the backend detail, refuting the
claimed failure taxonomy. -/
theorem c6_counterexample :
    ollama_completion ("llama3.2".data) (.http 500 (.str ("boom detail".data)))
      = .error ollamaGuidance
  ∧ ollama_completion ("llama3.2".data) .unreachable = .error ollamaGuidance
  ∧ ¬ (("boom detail".data : Str) <:+: ollamaGuidance) := ⟨by rfl, rfl, by decide⟩

/-- C6 (amended): every failure of the Ollama path — unreachable
backend, timeout of the bounded wait, or any non-2xx response — raises
one and the same generic condition whose message is the operator
guidance on starting the dependency, never the backend detail; every
failure of the OpenAI-compatible path raises a generic condition whose
message is the prefix `LLM API failed: ` followed by the underlying
detail.  The two backends are thus distinguishable only by message
text, not by distinct exception classes. -/
theorem c6_provider_failure_collapse :
    (∀ (m : Str) (s : ℕ) (body : Json), ¬(200 ≤ s ∧ s < 300) →
        ollama_completion m (.http s body) = .error ollamaGuidance)
  ∧ (∀ m : Str, ollama_completion m .unreachable = .error ollamaGuidance)
  ∧ (∀ m : Str, ollama_completion m .timeout = .error ollamaGuidance)
  ∧ (∀ p detail : Str, openai_compatible_completion p (.failure detail) =
        .error ("LLM API failed: ".data ++ detail)) := by
  refine ⟨?_, fun _ => rfl, fun _ => rfl, fun _ _ => rfl⟩
  intro m s body h
  simp [ollama_completion, h]

/-- Witness for C6: the non-2xx clause applied at status 503. -/
theorem c6_witness :
    ¬(200 ≤ 503 ∧ 503 < 300)
  ∧ ollama_completion ("llama3.2".data) (.http 503 .null) = .error ollamaGuidance :=
  ⟨by decide, c6_provider_failure_collapse.1 ("llama3.2".data) 503 .null (by decide)⟩

/-- C3: the two backend embeddings are not equivalent at the Gateway
boundary with respect to the key downstream consumers read.  The
Ollama path stores the generated text under both `content` (its own
comment says: for consistency) and `response`; the OpenAI-compatible
path stores it only under `response` and has no `content` key at all,
so `_parse_llm_response`, which reads `content` with default empty
string, sees an empty completion and returns an all-default summary
even though the backend produced non-empty text. -/
theorem c3_gateway_content_key_mismatch :
    ollama_completion ("llama3.2".data)
        (.http 200 (.obj [("response".data, .str c3Text), ("eval_count".data, .num 5),
                          ("prompt_eval_count".data, .num 7)]))
      = .ok (.obj [("content".data, .str c3Text), ("response".data, .str c3Text),
                   ("tokens_used".data, .num 12), ("model".data, .str ("llama3.2".data)),
                   ("provider".data, .str ("ollama".data)), ("cost_usd".data, .num 0)])
  ∧ openai_compatible_completion ("openai".data) (.success c3Text 42 ("gpt-4".data))
      = .ok (.obj c3OpenaiFields)
  ∧ objLookup c3OpenaiFields ("content".data) = none
  ∧ parse_llm_response (.obj c3OpenaiFields)
      = .ok { summary_text := [], completed_yesterday := [], planned_today := [],
              blockers := [], action_items := .arr [], risk_indicators := .arr [],
              sentiment_score := 0.5, absent_members := .arr [] }
  ∧ c3Text ≠ [] := by
  refine ⟨?_, rfl, rfl, by rfl, by decide⟩
  have h0 : (5 : ℚ) + 7 = 12 := by norm_num
  calc ollama_completion ("llama3.2".data)
        (.http 200 (.obj [("response".data, .str c3Text), ("eval_count".data, .num 5),
                          ("prompt_eval_count".data, .num 7)]))
      = .ok (.obj [("content".data, .str c3Text), ("response".data, .str c3Text),
                   ("tokens_used".data, .num ((5 : ℚ) + 7)), ("model".data, .str ("llama3.2".data)),
                   ("provider".data, .str ("ollama".data)), ("cost_usd".data, .num 0)]) := by rfl
    _ = .ok (.obj [("content".data, .str c3Text), ("response".data, .str c3Text),
                   ("tokens_used".data, .num 12), ("model".data, .str ("llama3.2".data)),
                   ("provider".data, .str ("ollama".data)), ("cost_usd".data, .num 0)]) := by rw [h0]

/-- C10 counterexample: when the team lookup finds no team, the service
raises `ValueError`, not `TypeError`, refuting the universally
quantified claim; the session is still rolled back and nothing is
persisted. -/
theorem c10_counterexample :
    generate_standup_summary ⟨none⟩ =
      (.error (.valueError ("Team not found".data)), ⟨true, [], false⟩) := rfl

/-- C10 (amended): every call of the service entry point raises after
rolling back, never persists a record, and never reaches the LLM; the
raised error is `ValueError` when the team lookup fails and a
`TypeError` from the keyword-argument mismatch of the `StandupAgent`
construction when the team exists and has no integration keys
configured (with configured keys the `TypeError` arises earlier, at
the integration-client constructors, which also reject the `team`
keyword). -/
theorem c10_service_entry_point_broken : ∀ env : ServiceEnv,
    ((generate_standup_summary env).2.rolled_back = true ∧
     (generate_standup_summary env).2.persisted = [] ∧
     (generate_standup_summary env).2.llm_called = false) ∧
    (∃ e, (generate_standup_summary env).1 = .error e) ∧
    (env.team = none →
      (generate_standup_summary env).1 = .error (.valueError ("Team not found".data))) ∧
    (∀ team, env.team = some team → team.jira_project_key.getD [] = [] →
      team.slack_channel_id.getD [] = [] →
      (generate_standup_summary env).1 =
        .error (.typeError
          ("StandupAgent.__init__ got an unexpected keyword argument ai_engine".data))) := by
  intro env
  cases henv : env.team with
  | none => simp [generate_standup_summary, henv]
  | some team =>
      by_cases hj : team.jira_project_key.getD [] = []
      · by_cases hs : team.slack_channel_id.getD [] = []
        · simp [generate_standup_summary, henv, hj, hs, pyKwCall]
        · simp [generate_standup_summary, henv, hj, hs, pyKwCall]
      · simp [generate_standup_summary, henv, hj, pyKwCall]

/-- Witness for C10: the amended theorem applied to a concrete team row
with no integrations configured. -/
theorem c10_witness :
    (generate_standup_summary ⟨some ⟨("T".data), none, none⟩⟩).1 =
      .error (.typeError
        ("StandupAgent.__init__ got an unexpected keyword argument ai_engine".data))
  ∧ (generate_standup_summary ⟨some ⟨("T".data), none, none⟩⟩).2.persisted = [] :=
  ⟨(c10_service_entry_point_broken ⟨some ⟨("T".data), none, none⟩⟩).2.2.2
      ⟨("T".data), none, none⟩ rfl rfl rfl,
   (c10_service_entry_point_broken ⟨some ⟨("T".data), none, none⟩⟩).1.2.1⟩

/-- C5 counterexample: a completion whose fenced block decodes to an
object that is missing the `action_items` key (and two others) — the
hypothesis of the claim — nevertheless makes the parse raise, because
the present `sentiment` key holds a number; the recovery is therefore
not unconditionally silent under missing keys, refuting the claim as
stated. -/
theorem c5_counterexample :
    jsonLoads ("\x7b\"sentiment\": 2\x7d".data) = some (.obj [("sentiment".data, .num 2)])
  ∧ objLookup [(("sentiment".data : Str), (Json.num 2))] ("action_items".data) = none
  ∧ parse_llm_response_content ("```json\n\x7b\"sentiment\": 2\x7d\n```".data)
      = .error (.attributeError ("object has no attribute lower".data)) := ⟨rfl, rfl, rfl⟩

/-- C5 (amended): when the fenced opener is absent the whole input is
the narrative and all four structured fields take their documented
defaults (score 0.5); when the opener is found (first occurrence), the
narrative is the stripped text before it and the candidate is the
stripped text between the opener and the next fence close; when the
candidate fails to decode, all four fields take the full defaults; and
when it decodes to an object whose sentiment value, if present, is a
string, each missing key resolves to its documented default (empty
lists, neutral sentiment, score 0.5) with no raised error — silent
recovery holds except when a decoded non-object or non-string
sentiment value makes the parse raise (see the counterexample and C1). -/
theorem c5_default_substitution : ∀ content : Str,
    (find content jsonOpener 0 = none →
       parse_llm_response_content content = .ok
         { summary_text := content,
           completed_yesterday := parse_bullet_list (extract_section content mkCompleted mkPlanned),
           planned_today := parse_bullet_list (extract_section content mkPlanned mkBlockers),
           blockers := parse_bullet_list (extract_section content mkBlockers mkNotes),
           action_items := .arr [], risk_indicators := .arr [],
           sentiment_score := 0.5, absent_members := .arr [] })
  ∧ (∀ js je : ℕ, find content jsonOpener 0 = some js →
       find content fenceClose (js + 7) = some je →
       splitContent content = (strip (content.take js), strip ((content.take je).drop (js + 7))))
  ∧ (jsonLoads (splitContent content).2 = none →
       parse_llm_response_content content = .ok
         { summary_text := (splitContent content).1,
           completed_yesterday := parse_bullet_list (extract_section (splitContent content).1 mkCompleted mkPlanned),
           planned_today := parse_bullet_list (extract_section (splitContent content).1 mkPlanned mkBlockers),
           blockers := parse_bullet_list (extract_section (splitContent content).1 mkBlockers mkNotes),
           action_items := .arr [], risk_indicators := .arr [],
           sentiment_score := 0.5, absent_members := .arr [] })
  ∧ (∀ kvs, jsonLoads (splitContent content).2 = some (.obj kvs) →
       objLookup kvs ("sentiment".data) = none →
       parse_llm_response_content content = .ok
         { summary_text := (splitContent content).1,
           completed_yesterday := parse_bullet_list (extract_section (splitContent content).1 mkCompleted mkPlanned),
           planned_today := parse_bullet_list (extract_section (splitContent content).1 mkPlanned mkBlockers),
           blockers := parse_bullet_list (extract_section (splitContent content).1 mkBlockers mkNotes),
           action_items := (objLookup kvs ("action_items".data)).getD (.arr []),
           risk_indicators := (objLookup kvs ("risk_indicators".data)).getD (.arr []),
           sentiment_score := 0.5,
           absent_members := (objLookup kvs ("absent_members".data)).getD (.arr []) })
  ∧ (∀ kvs (s : Str), jsonLoads (splitContent content).2 = some (.obj kvs) →
       objLookup kvs ("sentiment".data) = some (.str s) →
       parse_llm_response_content content = .ok
         { summary_text := (splitContent content).1,
           completed_yesterday := parse_bullet_list (extract_section (splitContent content).1 mkCompleted mkPlanned),
           planned_today := parse_bullet_list (extract_section (splitContent content).1 mkPlanned mkBlockers),
           blockers := parse_bullet_list (extract_section (splitContent content).1 mkBlockers mkNotes),
           action_items := (objLookup kvs ("action_items".data)).getD (.arr []),
           risk_indicators := (objLookup kvs ("risk_indicators".data)).getD (.arr []),
           sentiment_score := ratLookupD sentiment_map (lower s) 0.5,
           absent_members := (objLookup kvs ("absent_members".data)).getD (.arr []) }) := by
  intro content
  refine ⟨?_, ?_, ?_, ?_, ?_⟩
  · intro h
    have hsc := splitContent_opener_none content h
    have hobj : (jsonLoads (splitContent content).2).getD default_structured = .obj [] := by
      rw [hsc]; rfl
    rw [parse_content_obj content [] hobj, hsc]
    rfl
  · intro js je h1 h2
    unfold splitContent
    rw [h1]
    simp only []
    rw [h2]
  · intro h
    have hobj : (jsonLoads (splitContent content).2).getD default_structured =
        .obj [("action_items".data, .arr []), ("risk_indicators".data, .arr []),
              ("sentiment".data, .str ("neutral".data)), ("absent_members".data, .arr [])] := by
      rw [h]; rfl
    rw [parse_content_obj content _ hobj]
    rfl
  · intro kvs h1 h2
    have hobj : (jsonLoads (splitContent content).2).getD default_structured = .obj kvs := by
      rw [h1]; rfl
    rw [parse_content_obj content kvs hobj, h2]
    rfl
  · intro kvs s h1 h2
    have hobj : (jsonLoads (splitContent content).2).getD default_structured = .obj kvs := by
      rw [h1]; rfl
    rw [parse_content_obj content kvs hobj, h2]
    rfl

/-- Witness for C5: the opener-absent clause applied at a concrete
completion with no fenced block. -/
theorem c5_witness :
    find ("hello".data) jsonOpener 0 = none
  ∧ parse_llm_response_content ("hello".data) = .ok
      { summary_text := ("hello".data), completed_yesterday := [], planned_today := [],
        blockers := [], action_items := .arr [], risk_indicators := .arr [],
        sentiment_score := 0.5, absent_members := .arr [] } :=
  ⟨rfl, (c5_default_substitution ("hello".data)).1 rfl⟩

set_option maxRecDepth 100000 in
/-- C7 counterexample: in the end-to-end scenario the run succeeds, yet
the returned result dict has neither a sentiment-score key nor an
absent-members key — it does not carry the full set of ParsedSummary
fields the claim asserts (those two live only on the persisted
record). -/
theorem c7_counterexample :
    (match (execute_with_session c7Env 7 c7Date).1 with
     | .ok (.obj kvs) => (objLookup kvs ("sentiment_score".data),
                          objLookup kvs ("absent_members".data),
                          objLookup kvs ("success".data))
     | _ => (some .null, some .null, none))
    = (none, none, some (.bool true)) := rfl

set_option maxRecDepth 100000 in
/-- C7 (amended): every run that reaches the persistence step (at
least one note, a Gateway completion, and a parse that does not raise)
persists exactly one summary record — human-approved false, not posted
externally, AI-generated true, with the run date, team, the sprint and
creator references of the first note, and all ParsedSummary fields
including the sentiment score and absent members — and returns the
success dict carrying the record identifier, the narrative, the three
bullet lists, action items, risk indicators, and the token/cost
metadata read off the Gateway response (sentiment score and absent
members are on the record only).  In the three-note scenario of team 7
on 2025-01-10 with the stub Gateway, the persisted record has blockers
`Waiting on design`, completed-yesterday containing both the Alice and
Carol items, and human-approved false. -/
theorem c7_success_postcondition :
    (∀ (env : Env) (tid : Int) (d : PyDate) (kvs : List (Str × Json)) (parsed : ParsedSummary),
      env.notes ≠ [] →
      env.llm (format_prompt_for_llm env env.notes tid d) = .ok (.obj kvs) →
      parse_llm_response (.obj kvs) = .ok parsed →
      execute_with_session env tid d =
        (.ok (success_result env.nextId tid d parsed env.now
               ((objLookup kvs ("tokens_used".data)).getD (.num 0))
               ((objLookup kvs ("cost_usd".data)).getD (.num 0))),
         ⟨[format_prompt_for_llm env env.notes tid d],
          [format_prompt_for_llm env env.notes tid d],
          [save_summary env.nextId tid d parsed env.notes]⟩)
      ∧ (save_summary env.nextId tid d parsed env.notes).human_approved = false
      ∧ (save_summary env.nextId tid d parsed env.notes).posted_to_slack = false
      ∧ (save_summary env.nextId tid d parsed env.notes).ai_generated = true
      ∧ (save_summary env.nextId tid d parsed env.notes).date = d
      ∧ (save_summary env.nextId tid d parsed env.notes).team_id = tid
      ∧ (save_summary env.nextId tid d parsed env.notes).summary_text = parsed.summary_text
      ∧ (save_summary env.nextId tid d parsed env.notes).completed_yesterday = parsed.completed_yesterday
      ∧ (save_summary env.nextId tid d parsed env.notes).planned_today = parsed.planned_today
      ∧ (save_summary env.nextId tid d parsed env.notes).blockers = parsed.blockers
      ∧ (save_summary env.nextId tid d parsed env.notes).action_items = parsed.action_items
      ∧ (save_summary env.nextId tid d parsed env.notes).risk_indicators = parsed.risk_indicators
      ∧ (save_summary env.nextId tid d parsed env.notes).sentiment_score = parsed.sentiment_score
      ∧ (save_summary env.nextId tid d parsed env.notes).absent_members = parsed.absent_members)
  ∧ ((execute_with_session c7Env 7 c7Date).2.saved.map
      (fun r => (r.blockers, r.completed_yesterday, r.planned_today, r.human_approved,
                 r.posted_to_slack, r.ai_generated, r.id, r.team_id, r.creator_id,
                 r.sentiment_score)))
    = [([("Waiting on design".data)],
        [("Shipped login".data), ("Fixed bug".data)],
        [("Start search".data), ("Review PR".data), ("Write tests".data)],
        false, false, true, 41, 7, some 1, 0.8)] := by
  refine ⟨?_, by rfl⟩
  intro env tid d kvs parsed hne hllm hparse
  refine ⟨?_, rfl, rfl, rfl, rfl, rfl, rfl, rfl, rfl, rfl, rfl, rfl, rfl, rfl⟩
  have hni : env.notes.isEmpty = false := by
    cases hn : env.notes with
    | nil => exact absurd hn hne
    | cons a l => rfl
  unfold execute_with_session
  rw [hni]
  simp only [Bool.false_eq_true, if_false, hllm, hparse, pyGet]

set_option maxRecDepth 100000 in
/-- Witness for C7: the postcondition applied to the concrete
three-note scenario environment. -/
theorem c7_witness :
    c7Env.notes ≠ []
  ∧ execute_with_session c7Env 7 c7Date =
      (.ok (success_result c7Env.nextId 7 c7Date c7Parsed c7Env.now
             ((objLookup c7ResponseFields ("tokens_used".data)).getD (.num 0))
             ((objLookup c7ResponseFields ("cost_usd".data)).getD (.num 0))),
       ⟨[format_prompt_for_llm c7Env c7Env.notes 7 c7Date],
        [format_prompt_for_llm c7Env c7Env.notes 7 c7Date],
        [save_summary c7Env.nextId 7 c7Date c7Parsed c7Env.notes]⟩) :=
  have hne : c7Env.notes ≠ [] := by simp [c7Env]
  have hp : parse_llm_response (.obj c7ResponseFields) = .ok c7Parsed := by rfl
  ⟨hne, (c7_success_postcondition.1 c7Env 7 c7Date c7ResponseFields c7Parsed hne rfl hp).1⟩

end AIScrum
